import Mathlib

/-!
Verification of the MCQ scanner backend (Node.js) against its specification.

The development shallowly embeds:
* `services/geminiService.js` — the Analysis Client: MIME-type selection from
  the file-name suffix, markdown-fence stripping of the model's text response,
  trimming, and JSON parsing;
* `api/analyze-sheet.js` — the serverless request handler (multer upload,
  validation, temp-file lifecycle, response envelopes);
* the express variant of the same handler (`app.post('/api/analyze-sheet')`).

Host-language library behaviour the code relies on (JavaScript's
`String.prototype.replace` with the global regex /```json|```/, `trim`,
`JSON.parse`, and multer's upload middleware) is embedded faithfully from the
documented semantics of those libraries.  Filesystem and network effects are
made explicit: the handler returns, besides the HTTP response, a trace that
records whether bytes were spooled to the temporary location, whether the
temporary file still exists when the handler returns, and whether the Gemini
service was constructed / its `analyzeImage` invoked.
-/

namespace McqScanner

/-! ## JavaScript string primitives -/

/-- One left-to-right pass of JavaScript's
`text.replace(/```json|```/g, '')`: at each position the regex engine first
tries the alternative ```` ```json ````, then ```` ``` ````; on a match the
matched characters are dropped and scanning resumes after them (no rescan of
the produced text). -/
def stripAux : List Char → List Char
  | '\u0060' :: '\u0060' :: '\u0060' :: 'j' :: 's' :: 'o' :: 'n' :: rest => stripAux rest
  | '\u0060' :: '\u0060' :: '\u0060' :: rest => stripAux rest
  | c :: rest => c :: stripAux rest
  | [] => []

/-- `text.replace(/```json|```/g, '')` from `geminiService.js`. -/
def stripFences (s : String) : String := ⟨stripAux s.data⟩

/-- The WhiteSpace ∪ LineTerminator set trimmed by JavaScript's
`String.prototype.trim` (code points). -/
def jsWhitespaceCodes : List Nat :=
  [0x9, 0xA, 0xB, 0xC, 0xD, 0x20, 0xA0, 0x1680, 0x2000, 0x2001, 0x2002,
   0x2003, 0x2004, 0x2005, 0x2006, 0x2007, 0x2008, 0x2009, 0x200A,
   0x2028, 0x2029, 0x202F, 0x205F, 0x3000, 0xFEFF]

def isJsSpace (c : Char) : Bool := jsWhitespaceCodes.contains c.toNat

def jsTrimData (l : List Char) : List Char :=
  ((l.dropWhile isJsSpace).reverse.dropWhile isJsSpace).reverse

/-- JavaScript's `String.prototype.trim`. -/
def jsTrim (s : String) : String := ⟨jsTrimData s.data⟩

/-! ## JSON values and `JSON.parse`

JSON numbers are kept as their source lexeme (a `String`); the claims under
verification never compare distinct numeric lexemes, so the coarser
floating-point identification performed by JavaScript is irrelevant here. -/

inductive Json where
  | null : Json
  | bool : Bool → Json
  | num : String → Json
  | str : String → Json
  | arr : List Json → Json
  | obj : List (String × Json) → Json
deriving Repr

/-- The whitespace accepted between JSON tokens (RFC 8259 / `JSON.parse`). -/
def isJsonWs (c : Char) : Bool := c = ' ' || c = '\t' || c = '\n' || c = '\r'

def skipJsonWs (l : List Char) : List Char := l.dropWhile isJsonWs

def hexDigit (c : Char) : Option Nat :=
  if 48 ≤ c.toNat ∧ c.toNat ≤ 57 then some (c.toNat - 48)
  else if 97 ≤ c.toNat ∧ c.toNat ≤ 102 then some (c.toNat - 97 + 10)
  else if 65 ≤ c.toNat ∧ c.toNat ≤ 70 then some (c.toNat - 65 + 10)
  else none

def escChar (c : Char) : Option Char :=
  if c = '"' then some '"'
  else if c = '\\' then some '\\'
  else if c = '/' then some '/'
  else if c = 'b' then some (Char.ofNat 8)
  else if c = 'f' then some (Char.ofNat 12)
  else if c = 'n' then some '\n'
  else if c = 'r' then some '\r'
  else if c = 't' then some '\t'
  else none

/-- Body of a JSON string, after the opening quote.  Raw control characters
are rejected; `\uXXXX` escapes are decoded by `Char.ofNat` (UTF-16 surrogate
halves, which no claim exercises, are approximated). -/
def parseStrAux : List Char → Option (List Char × List Char)
  | [] => none
  | '"' :: rest => some ([], rest)
  | '\\' :: 'u' :: h1 :: h2 :: h3 :: h4 :: rest =>
      match hexDigit h1, hexDigit h2, hexDigit h3, hexDigit h4 with
      | some a, some b, some c, some d =>
          (parseStrAux rest).map fun p =>
            (Char.ofNat (a * 4096 + b * 256 + c * 16 + d) :: p.1, p.2)
      | _, _, _, _ => none
  | '\\' :: e :: rest =>
      match escChar e with
      | some c => (parseStrAux rest).map fun p => (c :: p.1, p.2)
      | none => none
  | c :: rest =>
      if c.toNat < 32 then none
      else (parseStrAux rest).map fun p => (c :: p.1, p.2)

/-- The integer part of a JSON number, sign included
(`-? (0 | [1-9][0-9]*)`), returned as the consumed lexeme. -/
def parseIntPart (cs : List Char) : Option (List Char × List Char) :=
  let signed : List Char × List Char :=
    match cs with
    | '-' :: r => (['-'], r)
    | r => ([], r)
  match signed.2 with
  | '0' :: r => some (signed.1 ++ ['0'], r)
  | c :: r =>
      if 49 ≤ c.toNat ∧ c.toNat ≤ 57 then
        some (signed.1 ++ c :: r.takeWhile Char.isDigit, r.dropWhile Char.isDigit)
      else none
  | [] => none

/-- Optional fraction part (`. [0-9]+`). -/
def parseFracPart (acc : List Char) (cs : List Char) :
    Option (List Char × List Char) :=
  match cs with
  | '.' :: r =>
      if r.takeWhile Char.isDigit = [] then none
      else some (acc ++ '.' :: r.takeWhile Char.isDigit, r.dropWhile Char.isDigit)
  | _ => some (acc, cs)

/-- Optional exponent part (`[eE] [+-]? [0-9]+`). -/
def parseExpPart (acc : List Char) (cs : List Char) :
    Option (List Char × List Char) :=
  match cs with
  | c :: r =>
      if c = 'e' ∨ c = 'E' then
        let signed : List Char × List Char :=
          match r with
          | '+' :: r2 => (['+'], r2)
          | '-' :: r2 => (['-'], r2)
          | r2 => ([], r2)
        if signed.2.takeWhile Char.isDigit = [] then none
        else some (acc ++ c :: signed.1 ++ signed.2.takeWhile Char.isDigit,
                   signed.2.dropWhile Char.isDigit)
      else some (acc, cs)
  | [] => some (acc, cs)

def parseNumber (cs : List Char) : Option (String × List Char) := do
  let i ← parseIntPart cs
  let f ← parseFracPart i.1 i.2
  let x ← parseExpPart f.1 f.2
  some (⟨x.1⟩, x.2)

mutual

/-- A JSON value (recursive descent, fuel-bounded). -/
def parseVal : Nat → List Char → Option (Json × List Char)
  | 0, _ => none
  | Nat.succ fuel, cs =>
    match skipJsonWs cs with
    | 'n' :: 'u' :: 'l' :: 'l' :: r => some (.null, r)
    | 't' :: 'r' :: 'u' :: 'e' :: r => some (.bool true, r)
    | 'f' :: 'a' :: 'l' :: 's' :: 'e' :: r => some (.bool false, r)
    | '"' :: r => (parseStrAux r).map fun p => (.str ⟨p.1⟩, p.2)
    | '[' :: r =>
        match skipJsonWs r with
        | ']' :: r2 => some (.arr [], r2)
        | r2 => (parseItems fuel r2).map fun p => (.arr p.1, p.2)
    | '\u007b' :: r =>
        match skipJsonWs r with
        | '\u007d' :: r2 => some (.obj [], r2)
        | r2 => (parseFields fuel r2).map fun p => (.obj p.1, p.2)
    | cs2 => (parseNumber cs2).map fun p => (.num p.1, p.2)

/-- Comma-separated array items up to the closing bracket. -/
def parseItems : Nat → List Char → Option (List Json × List Char)
  | 0, _ => none
  | Nat.succ fuel, cs => do
      let v ← parseVal fuel cs
      match skipJsonWs v.2 with
      | ',' :: r2 => (parseItems fuel r2).map fun p => (v.1 :: p.1, p.2)
      | ']' :: r2 => some ([v.1], r2)
      | _ => none

/-- Comma-separated object members up to the closing brace. -/
def parseFields : Nat → List Char → Option (List (String × Json) × List Char)
  | 0, _ => none
  | Nat.succ fuel, cs =>
      match skipJsonWs cs with
      | '"' :: r => do
          let k ← parseStrAux r
          match skipJsonWs k.2 with
          | ':' :: r3 => do
              let v ← parseVal fuel r3
              match skipJsonWs v.2 with
              | ',' :: r5 => (parseFields fuel r5).map fun p =>
                  ((⟨k.1⟩, v.1) :: p.1, p.2)
              | '\u007d' :: r5 => some ([(⟨k.1⟩, v.1)], r5)
              | _ => none
          | _ => none
      | _ => none

end

/-- JavaScript's `JSON.parse`: one value, surrounded by optional JSON
whitespace, consuming the whole input.  `none` models a thrown
`SyntaxError`. -/
def parseJson (s : String) : Option Json :=
  match parseVal (s.data.length + 1) s.data with
  | some (v, r) => if skipJsonWs r = [] then some v else none
  | none => none

/-! ## Analysis Client (`services/geminiService.js`) -/

/-- MIME-type selection in `GeminiService.analyzeImage`:
`imagePath.toLowerCase().endsWith('.png')` and `.gif`, defaulting to
`image/jpeg`.  JavaScript's `toLowerCase` agrees with the character-wise
`Char.toLower` on the ASCII paths at stake. -/
def mimeTypeFor (imagePath : String) : String :=
  if (".png".data).isSuffixOf (imagePath.data.map Char.toLower) then "image/png"
  else if (".gif".data).isSuffixOf (imagePath.data.map Char.toLower) then "image/gif"
  else "image/jpeg"

/-- Message of the error thrown by `GeminiService.analyzeImage` on any
failure: `'Failed to analyze image with Gemini API: ' + error.message`. -/
def geminiFailureMsg (cause : String) : String :=
  "Failed to analyze image with Gemini API: " ++ cause

/-- `const cleanedText = text.replace(/```json|```/g, '').trim();` -/
def cleanModelText (text : String) : String := jsTrim (stripFences text)

/-- The whole post-processing of the model's raw text:
fence stripping, trim, `JSON.parse`. -/
def postProcess (text : String) : Option Json := parseJson (cleanModelText text)

/-- Environment of one request: everything outside the program's control.
`modelResponse` abstracts the attempt up to `response.text()` — `.error e`
models the file read or the model call throwing with message `e`, `.ok t`
models the model returning text `t`.  `parseErrMsg` is the message of the
`SyntaxError` that `JSON.parse` raises on invalid input (host-defined text).
`nodeEnv` is `process.env.NODE_ENV`. -/
structure Env where
  modelResponse : Except String String
  parseErrMsg : String
  nodeEnv : String

/-- `GeminiService.analyzeImage` outcome: on a successful model call the
cleaned text is parsed as JSON and returned; every failure is re-thrown as
`geminiFailureMsg` wrapping the underlying cause. -/
def analyzeImage (env : Env) : Except String Json :=
  match env.modelResponse with
  | .error e => .error (geminiFailureMsg e)
  | .ok text =>
      match parseJson (cleanModelText text) with
      | some v => .ok v
      | none => .error (geminiFailureMsg env.parseErrMsg)

/-! ## Upload handler (`api/analyze-sheet.js` and the express variant) -/

/-- `allowedTypes` of the multer `fileFilter`. -/
def allowedTypes : List String :=
  ["image/jpeg", "image/png", "image/jpg", "image/gif"]

/-- `limits: { fileSize: 10 * 1024 * 1024 }` — bytes. -/
def maxFileSize : Nat := 10 * 1024 * 1024

/-- The file carried by the multipart field `image`, as seen by multer:
declared content type, size in bytes, original client-side name. -/
structure UploadedFile where
  mimetype : String
  size : Nat
  originalname : String

/-- An incoming HTTP request, restricted to what the handler inspects:
the method string and the file of the `image` multipart field (if any). -/
structure Request where
  method : String
  imageFile : Option UploadedFile

/-- Outcome of `upload.single('image')`. -/
inductive MulterOutcome where
  | ok (path : String)
  | noFile
  | err (message : String)

/-- Result of running the multer middleware, with its filesystem effects made
explicit: `spooled` — some bytes were written to the temporary location while
receiving the body; `fileOnDisk` — the temporary file still exists when the
middleware finishes. -/
structure MulterResult where
  outcome : MulterOutcome
  spooled : Bool
  fileOnDisk : Bool

def multerErrInvalidType : String :=
  "Invalid file type. Only JPEG, PNG, JPG, and GIF are allowed."

/-- `upload.single('image')` with the configured disk storage, `fileFilter`
and `fileSize` limit.  Multer calls `fileFilter` before writing anything, so
a type-rejected file is never spooled; when the `fileSize` limit aborts the
upload, the truncated spool is written but multer removes every uploaded file
before surfacing the `LIMIT_FILE_SIZE` error, so nothing remains on disk and
`req.file` stays unset. -/
def runMulter (req : Request) (tmpPath : String) : MulterResult :=
  match req.imageFile with
  | none => { outcome := .noFile, spooled := false, fileOnDisk := false }
  | some f =>
      if allowedTypes.contains f.mimetype then
        if f.size ≤ maxFileSize then
          { outcome := .ok tmpPath, spooled := true, fileOnDisk := true }
        else
          { outcome := .err "File too large", spooled := true, fileOnDisk := false }
      else
        { outcome := .err multerErrInvalidType, spooled := false, fileOnDisk := false }

/-- Body of an HTTP response: empty (the `OPTIONS` short-circuit), the
success envelope `{success: true, data}`, or the failure envelope
`{success: false, message}` with the optional diagnostic `error` field
(`none` models the field being absent — `JSON.stringify` drops
`error: undefined`). -/
inductive RespBody where
  | empty
  | success (data : Json)
  | failure (message : String) (errField : Option String)

/-- The `error` field of a failure envelope, if any. -/
def errFieldOf : RespBody → Option String
  | .failure _ e => e
  | _ => none

structure HttpResponse where
  status : Nat
  body : RespBody

/-- Observable effects of handling one request. -/
structure Trace where
  spooled : Bool
  geminiConstructed : Bool
  analyzeCalled : Bool
  unlinkCalled : Bool
  tmpFileAfter : Bool
  mimeSent : Option String

def noTrace : Trace :=
  { spooled := false, geminiConstructed := false, analyzeCalled := false,
    unlinkCalled := false, tmpFileAfter := false, mimeSent := none }

def genericFailureMsg : String := "Failed to analyze the image. Please try again."

def noFileMsg : String := "No image file uploaded"

def methodNotAllowedMsg : String := "Method not allowed"

/-- The serverless handler of `api/analyze-sheet.js`: CORS headers and the
`OPTIONS`/405 gates, then `runMiddleware(req, res, upload.single('image'))`
inside the `try` (a middleware rejection lands in the `catch` with `req.file`
unset), the no-file 400, the Gemini call, `fs.unlinkSync` on success, and the
`catch` that unlinks the file when it exists and answers 500. -/
def handler (req : Request) (tmpPath : String) (env : Env) :
    HttpResponse × Trace :=
  if req.method = "OPTIONS" then
    ({ status := 200, body := .empty }, noTrace)
  else if req.method ≠ "POST" then
    ({ status := 405, body := .failure methodNotAllowedMsg none }, noTrace)
  else
    match runMulter req tmpPath with
    | { outcome := .err _, spooled := sp, fileOnDisk := fd } =>
        ({ status := 500, body := .failure genericFailureMsg none },
         { spooled := sp, geminiConstructed := false, analyzeCalled := false,
           unlinkCalled := false, tmpFileAfter := fd, mimeSent := none })
    | { outcome := .noFile, .. } =>
        ({ status := 400, body := .failure noFileMsg none }, noTrace)
    | { outcome := .ok path, .. } =>
        match analyzeImage env with
        | .ok data =>
            ({ status := 200, body := .success data },
             { spooled := true, geminiConstructed := true, analyzeCalled := true,
               unlinkCalled := true, tmpFileAfter := false,
               mimeSent := some (mimeTypeFor path) })
        | .error _ =>
            ({ status := 500, body := .failure genericFailureMsg none },
             { spooled := true, geminiConstructed := true, analyzeCalled := true,
               unlinkCalled := true, tmpFileAfter := false,
               mimeSent := some (mimeTypeFor path) })

/-- The route body of the express variant
(`app.post('/api/analyze-sheet', upload.single('image'), ...)`): by the time
it runs, multer has succeeded, so it only sees `req.file` present or absent.
Its `catch` adds `error: process.env.NODE_ENV === 'development'
? error.message : undefined` to the 500 envelope. -/
def expressRoute (reqFile : Option String) (env : Env) :
    HttpResponse × Trace :=
  match reqFile with
  | none => ({ status := 400, body := .failure noFileMsg none }, noTrace)
  | some path =>
      match analyzeImage env with
      | .ok data =>
          ({ status := 200, body := .success data },
           { spooled := true, geminiConstructed := true, analyzeCalled := true,
             unlinkCalled := true, tmpFileAfter := false,
             mimeSent := some (mimeTypeFor path) })
      | .error e =>
          ({ status := 500,
             body := .failure genericFailureMsg
               (if env.nodeEnv = "development" then some e else none) },
           { spooled := true, geminiConstructed := true, analyzeCalled := true,
             unlinkCalled := true, tmpFileAfter := false,
             mimeSent := some (mimeTypeFor path) })

/-! ## Lemmas about the fence-stripping pass -/

theorem stripAux_cons_of_ne (c : Char) (l : List Char) (h : c ≠ '\u0060') :
    stripAux (c :: l) = c :: stripAux l := by
  rw [stripAux.eq_def]
  split
  · rename_i heq; injection heq with h1 h2; exact absurd h1 h
  · rename_i heq; injection heq with h1 h2; exact absurd h1 h
  · rename_i c2 r heq; injection heq with h1 h2; subst h1; subst h2; rfl
  · rename_i heq; exact absurd heq (List.cons_ne_nil c l)

theorem stripAux_append_of_no_bt :
    ∀ (l t : List Char), (∀ c ∈ l, c ≠ '\u0060') → stripAux (l ++ t) = l ++ stripAux t
  | [], _, _ => rfl
  | c :: cs, t, h => by
      have hc : c ≠ '\u0060' := h c (by simp)
      have ih := stripAux_append_of_no_bt cs t (fun x hx => h x (by simp [hx]))
      simp only [List.cons_append, stripAux_cons_of_ne c _ hc, ih]

theorem stripAux_eq_self_of_no_bt (l : List Char) (h : ∀ c ∈ l, c ≠ '\u0060') :
    stripAux l = l := by
  simpa [show stripAux [] = [] from rfl] using stripAux_append_of_no_bt l [] h

theorem jsTrimData_newline_wrap (l : List Char) :
    jsTrimData ('\n' :: (l ++ ['\n'])) = jsTrimData l := by
  unfold jsTrimData
  rw [List.dropWhile_cons]
  rw [if_pos (show isJsSpace '\n' = true by decide)]
  rw [List.dropWhile_append]
  by_cases hnil : (List.dropWhile isJsSpace l).isEmpty = true
  · rw [if_pos hnil]
    rw [List.isEmpty_iff] at hnil
    rw [hnil]
    rfl
  · rw [if_neg hnil]
    rw [List.reverse_append]
    show ((('\n' :: []) ++ (List.dropWhile isJsSpace l).reverse).dropWhile isJsSpace).reverse = _
    rw [List.cons_append, List.dropWhile_cons]
    rw [if_pos (show isJsSpace '\n' = true by decide)]
    rw [List.nil_append]

theorem cleanModelText_wrap (s : String) (h : ∀ c ∈ s.data, c ≠ '\u0060') :
    cleanModelText ("```json\n" ++ s ++ "\n```") = cleanModelText s := by
  have hA : ("```json\n" ++ s ++ "\n```").data
      = '\u0060' :: '\u0060' :: '\u0060' :: 'j' :: 's' :: 'o' :: 'n' :: '\n'
        :: (s.data ++ ('\n' :: '\u0060' :: '\u0060' :: '\u0060' :: [])) := by
    rw [String.data_append, String.data_append, List.append_assoc]
    rfl
  have hstrip : stripAux ("```json\n" ++ s ++ "\n```").data
      = '\n' :: (s.data ++ ['\n']) := by
    rw [hA]
    show stripAux ('\n' :: (s.data ++ ('\n' :: '\u0060' :: '\u0060' :: '\u0060' :: []))) = _
    rw [stripAux_cons_of_ne _ _ (by decide),
        stripAux_append_of_no_bt s.data _ h]
    rfl
  show (⟨jsTrimData (stripAux ("```json\n" ++ s ++ "\n```").data)⟩ : String)
      = ⟨jsTrimData (stripAux s.data)⟩
  rw [hstrip, stripAux_eq_self_of_no_bt s.data h, jsTrimData_newline_wrap]

/-! ## Characterisation of the handler's branches -/

/-- Effects of a request that reached `geminiService.analyzeImage`. -/
def fullTrace (path : String) : Trace :=
  { spooled := true, geminiConstructed := true, analyzeCalled := true,
    unlinkCalled := true, tmpFileAfter := false,
    mimeSent := some (mimeTypeFor path) }

theorem handler_options (req : Request) (tmpPath : String) (env : Env)
    (hO : req.method = "OPTIONS") :
    handler req tmpPath env = ({ status := 200, body := .empty }, noTrace) := by
  unfold handler
  rw [if_pos hO]

theorem handler_not_post (req : Request) (tmpPath : String) (env : Env)
    (hO : req.method ≠ "OPTIONS") (hP : req.method ≠ "POST") :
    handler req tmpPath env
      = ({ status := 405, body := .failure methodNotAllowedMsg none }, noTrace) := by
  unfold handler
  rw [if_neg hO, if_pos hP]

theorem handler_post_noFile (req : Request) (tmpPath : String) (env : Env)
    (hm : req.method = "POST") (hf : req.imageFile = none) :
    handler req tmpPath env
      = ({ status := 400, body := .failure noFileMsg none }, noTrace) := by
  rcases req with ⟨m, file⟩
  dsimp only at hm hf
  subst hm; subst hf
  rfl

theorem runMulter_badType (tmpPath : String) (m : String) (f : UploadedFile)
    (ht : allowedTypes.contains f.mimetype = false) :
    runMulter ⟨m, some f⟩ tmpPath
      = { outcome := .err multerErrInvalidType, spooled := false,
          fileOnDisk := false } := by
  unfold runMulter
  dsimp only
  rw [if_neg]
  simpa using ht

theorem runMulter_oversize (tmpPath : String) (m : String) (f : UploadedFile)
    (ht : allowedTypes.contains f.mimetype = true)
    (hs : maxFileSize < f.size) :
    runMulter ⟨m, some f⟩ tmpPath
      = { outcome := .err "File too large", spooled := true,
          fileOnDisk := false } := by
  unfold runMulter
  dsimp only
  rw [if_pos ht, if_neg (by omega)]

theorem runMulter_accepts (tmpPath : String) (m : String) (f : UploadedFile)
    (ht : allowedTypes.contains f.mimetype = true)
    (hs : f.size ≤ maxFileSize) :
    runMulter ⟨m, some f⟩ tmpPath
      = { outcome := .ok tmpPath, spooled := true, fileOnDisk := true } := by
  unfold runMulter
  dsimp only
  rw [if_pos ht, if_pos hs]

theorem handler_post_badType (req : Request) (tmpPath : String) (env : Env)
    (f : UploadedFile) (hm : req.method = "POST") (hf : req.imageFile = some f)
    (ht : allowedTypes.contains f.mimetype = false) :
    handler req tmpPath env
      = ({ status := 500, body := .failure genericFailureMsg none },
         { spooled := false, geminiConstructed := false, analyzeCalled := false,
           unlinkCalled := false, tmpFileAfter := false, mimeSent := none }) := by
  rcases req with ⟨m, file⟩
  dsimp only at hm hf
  subst hm; subst hf
  unfold handler
  dsimp only
  rw [if_neg (by decide), if_neg (by decide), runMulter_badType tmpPath _ f ht]

theorem handler_post_oversize (req : Request) (tmpPath : String) (env : Env)
    (f : UploadedFile) (hm : req.method = "POST") (hf : req.imageFile = some f)
    (ht : allowedTypes.contains f.mimetype = true)
    (hs : maxFileSize < f.size) :
    handler req tmpPath env
      = ({ status := 500, body := .failure genericFailureMsg none },
         { spooled := true, geminiConstructed := false, analyzeCalled := false,
           unlinkCalled := false, tmpFileAfter := false, mimeSent := none }) := by
  rcases req with ⟨m, file⟩
  dsimp only at hm hf
  subst hm; subst hf
  unfold handler
  dsimp only
  rw [if_neg (by decide), if_neg (by decide), runMulter_oversize tmpPath _ f ht hs]

theorem handler_post_analysis_err (req : Request) (tmpPath : String) (env : Env)
    (f : UploadedFile) (e : String)
    (hm : req.method = "POST") (hf : req.imageFile = some f)
    (ht : allowedTypes.contains f.mimetype = true)
    (hs : f.size ≤ maxFileSize) (he : analyzeImage env = .error e) :
    handler req tmpPath env
      = ({ status := 500, body := .failure genericFailureMsg none },
         fullTrace tmpPath) := by
  rcases req with ⟨m, file⟩
  dsimp only at hm hf
  subst hm; subst hf
  unfold handler
  dsimp only
  rw [if_neg (by decide), if_neg (by decide), runMulter_accepts tmpPath _ f ht hs]
  dsimp only
  rw [he]
  rfl

theorem handler_post_analysis_ok (req : Request) (tmpPath : String) (env : Env)
    (f : UploadedFile) (d : Json)
    (hm : req.method = "POST") (hf : req.imageFile = some f)
    (ht : allowedTypes.contains f.mimetype = true)
    (hs : f.size ≤ maxFileSize) (he : analyzeImage env = .ok d) :
    handler req tmpPath env
      = ({ status := 200, body := .success d }, fullTrace tmpPath) := by
  rcases req with ⟨m, file⟩
  dsimp only at hm hf
  subst hm; subst hf
  unfold handler
  dsimp only
  rw [if_neg (by decide), if_neg (by decide), runMulter_accepts tmpPath _ f ht hs]
  dsimp only
  rw [he]
  rfl

theorem expressRoute_err (path : String) (env : Env) (e : String)
    (he : analyzeImage env = .error e) :
    expressRoute (some path) env
      = ({ status := 500,
           body := .failure genericFailureMsg
             (if env.nodeEnv = "development" then some e else none) },
         fullTrace path) := by
  unfold expressRoute
  dsimp only
  rw [he]
  rfl

theorem expressRoute_ok (path : String) (env : Env) (d : Json)
    (he : analyzeImage env = .ok d) :
    expressRoute (some path) env
      = ({ status := 200, body := .success d }, fullTrace path) := by
  unfold expressRoute
  dsimp only
  rw [he]
  rfl

/-- Every request falls into one of the handler's six exit paths. -/
theorem handler_branches (req : Request) (tmpPath : String) (env : Env) :
    (handler req tmpPath env = ({ status := 200, body := .empty }, noTrace))
    ∨ (handler req tmpPath env
        = ({ status := 405, body := .failure methodNotAllowedMsg none }, noTrace))
    ∨ (handler req tmpPath env
        = ({ status := 400, body := .failure noFileMsg none }, noTrace))
    ∨ (∃ sp, handler req tmpPath env
        = ({ status := 500, body := .failure genericFailureMsg none },
           { spooled := sp, geminiConstructed := false, analyzeCalled := false,
             unlinkCalled := false, tmpFileAfter := false, mimeSent := none }))
    ∨ (∃ d, handler req tmpPath env
        = ({ status := 200, body := .success d }, fullTrace tmpPath))
    ∨ (handler req tmpPath env
        = ({ status := 500, body := .failure genericFailureMsg none },
           fullTrace tmpPath)) := by
  by_cases hO : req.method = "OPTIONS"
  · exact Or.inl (handler_options req tmpPath env hO)
  by_cases hP : req.method = "POST"
  · rcases hfile : req.imageFile with _ | f
    · exact Or.inr (Or.inr (Or.inl (handler_post_noFile req tmpPath env hP hfile)))
    · by_cases ht : allowedTypes.contains f.mimetype = true
      · by_cases hs : f.size ≤ maxFileSize
        · rcases hana : analyzeImage env with e | d
          · exact Or.inr (Or.inr (Or.inr (Or.inr (Or.inr
              (handler_post_analysis_err req tmpPath env f e hP hfile ht hs hana)))))
          · exact Or.inr (Or.inr (Or.inr (Or.inr (Or.inl
              ⟨d, handler_post_analysis_ok req tmpPath env f d hP hfile ht hs hana⟩))))
        · exact Or.inr (Or.inr (Or.inr (Or.inl
            ⟨true, handler_post_oversize req tmpPath env f hP hfile ht (by omega)⟩)))
      · exact Or.inr (Or.inr (Or.inr (Or.inl
          ⟨false, handler_post_badType req tmpPath env f hP hfile (by simpa using ht)⟩)))
  · exact Or.inr (Or.inl (handler_not_post req tmpPath env hO hP))

/-! ## Concrete inputs used by witnesses and counterexamples -/

def sampleJpeg : UploadedFile :=
  { mimetype := "image/jpeg", size := 2048, originalname := "sheet.jpg" }

def okJpegReq : Request := { method := "POST", imageFile := some sampleJpeg }

def noFilePost : Request := { method := "POST", imageFile := none }

def badTypeReq : Request :=
  { method := "POST",
    imageFile := some { mimetype := "text/plain", size := 5, originalname := "a.txt" } }

def bigFileReq : Request :=
  { method := "POST",
    imageFile := some { mimetype := "image/jpeg", size := 15 * 1024 * 1024,
                        originalname := "big.jpg" } }

def defEnv : Env :=
  { modelResponse := .ok "\x7b\"1\":\"A\"\x7d",
    parseErrMsg := "Unexpected token",
    nodeEnv := "production" }

def badJsonEnv : Env :=
  { modelResponse := .ok "I cannot determine the answers",
    parseErrMsg := "Unexpected token I in JSON at position 0",
    nodeEnv := "production" }

def devEnvBadJson : Env :=
  { modelResponse := .ok "not json at all",
    parseErrMsg := "Unexpected token o in JSON at position 1",
    nodeEnv := "development" }

/-! ## The claims -/

/-- C1: for every request to the analyze-sheet handler, regardless of outcome
(success, missing file, validation failure, analysis failure), the temporary
file created during handling no longer exists when the handler returns its
response; no exit path leaves an orphaned temporary file.  Stated for the
serverless handler over all requests and environments, and for the express
route body over both `req.file` states. -/
theorem C1_cleanup_invariant (req : Request) (tmpPath : String) (env : Env) :
    ((handler req tmpPath env).2.tmpFileAfter = false)
    ∧ (∀ rf : Option String, (expressRoute rf env).2.tmpFileAfter = false) := by
  constructor
  · rcases handler_branches req tmpPath env with
      h | h | h | ⟨sp, h⟩ | ⟨d, h⟩ | h <;> rw [h] <;> rfl
  · intro rf
    rcases rf with _ | path
    · rfl
    · rcases hana : analyzeImage env with e | d
      · rw [expressRoute_err path env e hana]
        rfl
      · rw [expressRoute_ok path env d hana]
        rfl

/-- C2 counterexample: a POST request whose file has the disallowed content
type `text/plain` is answered with HTTP 500 (the middleware rejection falls
into the generic catch), not with the 400 the claim asserts. -/
theorem C2_counterexample :
    (handler badTypeReq "/tmp/1-a.txt" defEnv).1.status = 500
    ∧ (handler badTypeReq "/tmp/1-a.txt" defEnv).1.status ≠ 400 := by
  exact ⟨rfl, by decide⟩

/-- C2 (amended): a POST request with no file is answered 400 with the
no-file message; a POST request whose file has a disallowed content type is
answered 500 with the generic failure message (the `fileFilter` error is
funnelled through the handler's catch branch); and every non-200 response
carries the failure envelope shape (success false plus a message string). -/
theorem C2_amended_rejections (req : Request) (tmpPath : String) (env : Env)
    (f : UploadedFile) :
    (req.method = "POST" → req.imageFile = none →
      (handler req tmpPath env).1
        = { status := 400, body := .failure noFileMsg none })
    ∧ (req.method = "POST" → req.imageFile = some f →
        allowedTypes.contains f.mimetype = false →
        (handler req tmpPath env).1
          = { status := 500, body := .failure genericFailureMsg none })
    ∧ ((handler req tmpPath env).1.status ≠ 200 →
        ∃ msg ef, (handler req tmpPath env).1.body = RespBody.failure msg ef) := by
  refine ⟨fun hm hf => ?_, fun hm hf ht => ?_, fun hne => ?_⟩
  · rw [handler_post_noFile req tmpPath env hm hf]
  · rw [handler_post_badType req tmpPath env f hm hf ht]
  · rcases handler_branches req tmpPath env with
      h | h | h | ⟨sp, h⟩ | ⟨d, h⟩ | h <;> rw [h] at hne ⊢
    · exact absurd rfl hne
    · exact ⟨_, _, rfl⟩
    · exact ⟨_, _, rfl⟩
    · exact ⟨_, _, rfl⟩
    · exact absurd rfl hne
    · exact ⟨_, _, rfl⟩

theorem C2_amended_rejections_witness :
    (handler noFilePost "/tmp/t" defEnv).1
        = { status := 400, body := .failure noFileMsg none }
    ∧ (handler badTypeReq "/tmp/t" defEnv).1
        = { status := 500, body := .failure genericFailureMsg none } :=
  ⟨(C2_amended_rejections noFilePost "/tmp/t" defEnv sampleJpeg).1 rfl rfl,
   (C2_amended_rejections badTypeReq "/tmp/t" defEnv
      { mimetype := "text/plain", size := 5, originalname := "a.txt" }).2.1
     rfl rfl (by decide)⟩

/-- C3: a POST request carrying a file larger than the 10 MiB ceiling is
rejected (answered 500 through the catch) and `GeminiService` is neither
constructed nor is its `analyzeImage` invoked. -/
theorem C3_oversized_never_analyzed (req : Request) (tmpPath : String)
    (env : Env) (f : UploadedFile) (hm : req.method = "POST")
    (hf : req.imageFile = some f) (hs : maxFileSize < f.size) :
    (handler req tmpPath env).2.analyzeCalled = false
    ∧ (handler req tmpPath env).2.geminiConstructed = false
    ∧ (handler req tmpPath env).1.status = 500 := by
  by_cases ht : allowedTypes.contains f.mimetype = true
  · rw [handler_post_oversize req tmpPath env f hm hf ht hs]
    exact ⟨rfl, rfl, rfl⟩
  · rw [handler_post_badType req tmpPath env f hm hf (by simpa using ht)]
    exact ⟨rfl, rfl, rfl⟩

theorem C3_oversized_never_analyzed_witness :
    maxFileSize < 15 * 1024 * 1024
    ∧ (handler bigFileReq "/tmp/t" defEnv).2.analyzeCalled = false :=
  ⟨by decide,
   (C3_oversized_never_analyzed bigFileReq "/tmp/t" defEnv
      { mimetype := "image/jpeg", size := 15 * 1024 * 1024,
        originalname := "big.jpg" } rfl rfl (by decide)).1⟩

/-- C4: a model response wrapped in a triple-backtick fence with a `json`
language tag and the same text without any fence go through fence stripping,
trim and `JSON.parse` to identical Answer Maps (for any response text free of
backticks, as the example texts are). -/
theorem C4_fence_wrap_equiv (s : String) (h : ∀ c ∈ s.data, c ≠ '\u0060') :
    postProcess ("```json\n" ++ s ++ "\n```") = postProcess s :=
  congrArg parseJson (cleanModelText_wrap s h)

theorem C4_fence_wrap_equiv_witness :
    postProcess ("```json\n" ++ "\x7b\"1\":\"A\"\x7d" ++ "\n```")
        = postProcess "\x7b\"1\":\"A\"\x7d"
    ∧ postProcess "\x7b\"1\":\"A\"\x7d" = some (Json.obj [("1", Json.str "A")]) :=
  ⟨C4_fence_wrap_equiv "\x7b\"1\":\"A\"\x7d" (by decide), rfl⟩

/-- C5: whenever the model call itself fails or the model's text does not
parse as JSON after fence stripping, `analyzeImage` signals the analysis
failure with the underlying cause attached, and the handler answers 500 with
the generic failure message — no crash, no partial result. -/
theorem C5_analysis_failure_500 (req : Request) (tmpPath : String) (env : Env)
    (f : UploadedFile) (hm : req.method = "POST") (hf : req.imageFile = some f)
    (ht : allowedTypes.contains f.mimetype = true) (hs : f.size ≤ maxFileSize)
    (hfail : (∃ e, env.modelResponse = .error e)
      ∨ (∃ t, env.modelResponse = .ok t ∧ parseJson (cleanModelText t) = none)) :
    (∃ cause, analyzeImage env = .error (geminiFailureMsg cause))
    ∧ (handler req tmpPath env).1
        = { status := 500, body := .failure genericFailureMsg none } := by
  have herr : ∃ cause, analyzeImage env = .error (geminiFailureMsg cause) := by
    rcases hfail with ⟨e, he⟩ | ⟨t, hok, hp⟩
    · exact ⟨e, by unfold analyzeImage; rw [he]⟩
    · exact ⟨env.parseErrMsg, by unfold analyzeImage; rw [hok]; dsimp only; rw [hp]⟩
  rcases herr with ⟨cause, hc⟩
  exact ⟨⟨cause, hc⟩,
    by rw [handler_post_analysis_err req tmpPath env f _ hm hf ht hs hc]⟩

theorem C5_analysis_failure_500_witness :
    (handler okJpegReq "/tmp/t" badJsonEnv).1
      = { status := 500, body := .failure genericFailureMsg none } :=
  (C5_analysis_failure_500 okJpegReq "/tmp/t" badJsonEnv sampleJpeg rfl rfl
    (by decide) (by decide)
    (Or.inr ⟨"I cannot determine the answers", rfl, rfl⟩)).2

/-- C6 counterexample: the no-file branch answers with the message
`No image file uploaded` — without the trailing period the claim quotes. -/
theorem C6_counterexample :
    (handler noFilePost "/tmp/t" defEnv).1.status = 400
    ∧ (handler noFilePost "/tmp/t" defEnv).1.body
        = RespBody.failure "No image file uploaded" none
    ∧ "No image file uploaded" ≠ "No image file uploaded." :=
  ⟨rfl, rfl, by decide⟩

/-- C6 (amended): a POST request whose multipart body contains no image file
field is answered 400 with success false and the message
`No image file uploaded` (no trailing period). -/
theorem C6_amended_no_file_400 (req : Request) (tmpPath : String) (env : Env)
    (hm : req.method = "POST") (hf : req.imageFile = none) :
    (handler req tmpPath env).1.status = 400
    ∧ (handler req tmpPath env).1.body = RespBody.failure noFileMsg none := by
  rw [handler_post_noFile req tmpPath env hm hf]
  exact ⟨rfl, rfl⟩

theorem C6_amended_no_file_400_witness :
    (handler noFilePost "/tmp/t2" defEnv).1.status = 400 :=
  (C6_amended_no_file_400 noFilePost "/tmp/t2" defEnv rfl rfl).1

/-- The path's name ends with the given suffix once both are lowercased —
the comparison the code actually performs. -/
def lowerEndsWith (p : String) (suf : String) : Bool :=
  suf.data.isSuffixOf (p.data.map Char.toLower)

/-- C7 counterexample: `scan.PNG` ends in neither `.png` nor `.gif`, so the
claim requires `image/jpeg` for it, but the code (which lowercases the path
first) derives `image/png`. -/
theorem C7_counterexample :
    mimeTypeFor "scan.PNG" = "image/png"
    ∧ ".png".data.isSuffixOf "scan.PNG".data = false
    ∧ ".gif".data.isSuffixOf "scan.PNG".data = false
    ∧ "image/png" ≠ "image/jpeg" :=
  ⟨rfl, by decide, by decide, by decide⟩

/-- C7 (amended): the MIME type sent to the model is determined solely by the
path's name suffix compared case-insensitively: `.png` → `image/png`,
`.gif` → `image/gif`, anything else (including `.jpg`/`.jpeg`) →
`image/jpeg`. -/
theorem C7_amended_mime_policy (p : String) :
    (lowerEndsWith p ".png" = true → mimeTypeFor p = "image/png")
    ∧ (lowerEndsWith p ".png" = false → lowerEndsWith p ".gif" = true →
        mimeTypeFor p = "image/gif")
    ∧ (lowerEndsWith p ".png" = false → lowerEndsWith p ".gif" = false →
        mimeTypeFor p = "image/jpeg") := by
  unfold mimeTypeFor lowerEndsWith
  refine ⟨fun h => ?_, fun h1 h2 => ?_, fun h1 h2 => ?_⟩
  · rw [if_pos h]
  · rw [if_neg (by simp [h1]), if_pos h2]
  · rw [if_neg (by simp [h1]), if_neg (by simp [h2])]

theorem C7_amended_mime_policy_witness :
    mimeTypeFor "a.PNG" = "image/png"
    ∧ mimeTypeFor "b.gif" = "image/gif"
    ∧ mimeTypeFor "c.jpeg" = "image/jpeg" :=
  ⟨(C7_amended_mime_policy "a.PNG").1 (by decide),
   (C7_amended_mime_policy "b.gif").2.1 (by decide) (by decide),
   (C7_amended_mime_policy "c.jpeg").2.2 (by decide) (by decide)⟩

/-- C8 counterexample: with the runtime-mode flag set to `development`, the
serverless handler's analysis-failure envelope still carries no underlying
error message — the claim's "every failure envelope" fails here (and also on
the 400 no-file envelope of the express variant). -/
theorem C8_counterexample :
    devEnvBadJson.nodeEnv = "development"
    ∧ (handler okJpegReq "/tmp/t" devEnvBadJson).1.body
        = RespBody.failure genericFailureMsg none :=
  ⟨rfl, rfl⟩

/-- C8 (amended): only the express variant's catch-branch 500 envelope is
mode-dependent: it carries the underlying error message exactly when
`NODE_ENV` equals `development`; the express 400 no-file envelope and every
envelope of the serverless handler carry no error field in any mode. -/
theorem C8_amended_dev_error_field (env : Env) (path : String) (e : String)
    (he : analyzeImage env = .error e) :
    ((expressRoute (some path) env).1.body
        = RespBody.failure genericFailureMsg
            (if env.nodeEnv = "development" then some e else none))
    ∧ (env.nodeEnv = "development" →
        errFieldOf (expressRoute (some path) env).1.body = some e)
    ∧ (env.nodeEnv ≠ "development" →
        errFieldOf (expressRoute (some path) env).1.body = none)
    ∧ (∀ req tmpPath env2, errFieldOf (handler req tmpPath env2).1.body = none)
    ∧ (∀ env2, errFieldOf (expressRoute none env2).1.body = none) := by
  refine ⟨?_, ?_, ?_, ?_, fun env2 => rfl⟩
  · rw [expressRoute_err path env e he]
  · intro hdev
    rw [expressRoute_err path env e he]
    show (if env.nodeEnv = "development" then some e else none) = some e
    rw [if_pos hdev]
  · intro hdev
    rw [expressRoute_err path env e he]
    show (if env.nodeEnv = "development" then some e else none) = none
    rw [if_neg hdev]
  · intro req tmpPath env2
    rcases handler_branches req tmpPath env2 with
      h | h | h | ⟨sp, h⟩ | ⟨d, h⟩ | h <;> rw [h] <;> rfl

theorem C8_amended_dev_error_field_witness :
    errFieldOf (expressRoute (some "/tmp/t") devEnvBadJson).1.body
      = some (geminiFailureMsg devEnvBadJson.parseErrMsg) :=
  (C8_amended_dev_error_field devEnvBadJson "/tmp/t"
    (geminiFailureMsg devEnvBadJson.parseErrMsg) rfl).2.1 rfl

/-- C9: the cleanup pass removes the fence substrings anywhere in the text,
not only as leading/trailing delimiters: on the valid fence-free JSON
`{"1":"a```b"}` the stripped text parses to a different Answer Map than the
raw text does. -/
theorem C9_global_fence_removal :
    stripFences "\x7b\"1\":\"a```b\"\x7d" = "\x7b\"1\":\"ab\"\x7d"
    ∧ parseJson "\x7b\"1\":\"a```b\"\x7d"
        = some (Json.obj [("1", Json.str "a```b")])
    ∧ postProcess "\x7b\"1\":\"a```b\"\x7d"
        = some (Json.obj [("1", Json.str "ab")])
    ∧ Json.obj [("1", Json.str "a```b")] ≠ Json.obj [("1", Json.str "ab")] := by
  refine ⟨rfl, rfl, rfl, ?_⟩
  intro h
  injection h with h1
  injection h1 with h2 h3
  injection h2 with h4 h5
  injection h5 with h6
  exact absurd h6 (by decide)

/-- C10: on a POST request with no image file field, the no-file branch has
an empty effect frame: nothing is spooled, no unlink happens, the Gemini
service is neither constructed nor called, no MIME type is sent, no temporary
file remains — only the 400 response is produced. -/
theorem C10_no_file_frame (req : Request) (tmpPath : String) (env : Env)
    (hm : req.method = "POST") (hf : req.imageFile = none) :
    (handler req tmpPath env).1
        = { status := 400, body := .failure noFileMsg none }
    ∧ (handler req tmpPath env).2.spooled = false
    ∧ (handler req tmpPath env).2.unlinkCalled = false
    ∧ (handler req tmpPath env).2.geminiConstructed = false
    ∧ (handler req tmpPath env).2.analyzeCalled = false
    ∧ (handler req tmpPath env).2.mimeSent = none
    ∧ (handler req tmpPath env).2.tmpFileAfter = false := by
  rw [handler_post_noFile req tmpPath env hm hf]
  exact ⟨rfl, rfl, rfl, rfl, rfl, rfl, rfl⟩

theorem C10_no_file_frame_witness :
    (handler noFilePost "/tmp/t3" defEnv).2.unlinkCalled = false :=
  (C10_no_file_frame noFilePost "/tmp/t3" defEnv rfl rfl).2.2.1

end McqScanner
